import Mathlib

/-
Verification of the ingestion-and-derivation pipeline of
`src/load_monthly_fg.py` (function `load_monthly_fg` and helper `_to_num`).

Modelling conventions:
* Numeric cell values are rationals (ℚ); the source's float arithmetic is
  idealised as exact arithmetic.  `NaN` / missing values are `Option.none`.
* A pandas column that may be absent from the table is modelled by a
  table-level presence flag (`Presence`) together with per-row cell values
  (`RawRow`); a present cell that failed numeric parsing is `none`.
* The file listing handed to the pipeline is the result of
  `sorted(data_dir.glob("*.csv"))` (line 41); the glob and the sort are not
  modelled because no verified property depends on non-csv names or on file
  order (the final `sort_values` of lines 202-203 only permutes rows and is
  likewise omitted).
* The `Tm -> Team` / `SO -> K` renames of line 74 are applied upstream of the
  model: `RawRow` carries the post-rename cells, and no claim exercises the
  rename itself.
* The standard deviation of line 191 involves a square root, hence the
  rescaled column (`fwobaCol`) lives in ℝ and is the only noncomputable part.
-/

namespace FG

/-- `_to_num` (lines 15-16): `pd.to_numeric(s, errors="coerce").fillna(0)`.
A cell that is missing or fails numeric parsing becomes `0`. -/
def toNum : Option ℚ → ℚ
  | some q => q
  | none => 0

/-- Value of a needed column for one row (lines 79-82 and 96-106): if the
column is absent from the table it is created filled with `0`; otherwise the
cell is coerced with `_to_num`. -/
def normCount (present : Bool) (cell : Option ℚ) : ℚ :=
  if present then toNum cell else 0

/-- Numeric value of a decimal digit character. -/
def digitVal (c : Char) : ℕ := c.toNat - 48

/-- `FILENAME_RE.fullmatch` (lines 12 and 48): the whole filename must be
two digits, `_`, four digits, `.csv`; on success returns `(month, year)`
as decoded on lines 53-54. -/
def parseMY (name : String) : Option (ℕ × ℕ) :=
  match name.toList with
  | m1 :: m2 :: '_' :: y1 :: y2 :: y3 :: y4 :: rest =>
    if rest = ['.', 'c', 's', 'v'] && m1.isDigit && m2.isDigit
        && y1.isDigit && y2.isDigit && y3.isDigit && y4.isDigit then
      some (10 * digitVal m1 + digitVal m2,
            1000 * digitVal y1 + 100 * digitVal y2 + 10 * digitVal y3 + digitVal y4)
    else none
  | _ => none

/-- Which columns exist in the concatenated table (after the renames of
line 74).  `hPA .. hK` are the fifteen "needed" counting columns of
lines 96-100; the remaining flags control the derived-column guards of
lines 111, 130, 156 and the (absent) guards of lines 166-197. -/
structure Presence where
  hPA : Bool := false
  hAB : Bool := false
  hH : Bool := false
  hB1 : Bool := false
  hB2 : Bool := false
  hB3 : Bool := false
  hHR : Bool := false
  hBB : Bool := false
  hIBB : Bool := false
  hHBP : Bool := false
  hSF : Bool := false
  hR : Bool := false
  hRBI : Bool := false
  hSB : Bool := false
  hK : Bool := false
  hasOPS : Bool := false
  hasWOBA : Bool := false
  hasWAR : Bool := false
  hasFWAR : Bool := false
  hasFWOBAraw : Bool := false
  hasFWOBA : Bool := false
deriving DecidableEq

/-- One row as read from a CSV file (post-rename cell values).  `none` is a
missing or non-numeric cell; a cell of a column the table does not have at
all is also `none` (pandas fills the union of columns with NaN).  `cB1 cB2
cB3` are the `1B 2B 3B` columns. -/
structure RawRow where
  Name : String := ""
  cPA : Option ℚ := none
  cAB : Option ℚ := none
  cH : Option ℚ := none
  cB1 : Option ℚ := none
  cB2 : Option ℚ := none
  cB3 : Option ℚ := none
  cHR : Option ℚ := none
  cBB : Option ℚ := none
  cIBB : Option ℚ := none
  cHBP : Option ℚ := none
  cSF : Option ℚ := none
  cR : Option ℚ := none
  cRBI : Option ℚ := none
  cSB : Option ℚ := none
  cK : Option ℚ := none
  cOPS : Option ℚ := none
  cWOBA : Option ℚ := none
  cWAR : Option ℚ := none
  cFWAR : Option ℚ := none
  cFWOBAraw : Option ℚ := none
  cFWOBA : Option ℚ := none
deriving DecidableEq

/-- One CSV file: its name and its parsed rows. -/
structure CsvFile where
  name : String
  rows : List RawRow
deriving DecidableEq

/-- A fully normalized row (after lines 59-60, 79-106): counting columns are
coerced rationals, `Season`/`Month` are nullable integers (`Int64`), and the
`xxx0` fields carry the coerced values of same-named pre-existing columns
(meaningful only when the corresponding `Presence` flag is set). -/
structure Row where
  Name : String := ""
  Season : Option ℤ := none
  Month : Option ℤ := none
  PA : ℚ := 0
  AB : ℚ := 0
  H : ℚ := 0
  B1 : ℚ := 0
  B2 : ℚ := 0
  B3 : ℚ := 0
  HR : ℚ := 0
  BB : ℚ := 0
  IBB : ℚ := 0
  HBP : ℚ := 0
  SF : ℚ := 0
  R : ℚ := 0
  RBI : ℚ := 0
  SB : ℚ := 0
  K : ℚ := 0
  OPS0 : ℚ := 0
  wOBA0 : ℚ := 0
  WAR0 : ℚ := 0
  fWAR0 : ℚ := 0
  FWOBAraw0 : ℚ := 0
  FWOBA0 : ℚ := 0
deriving DecidableEq

/-- Normalization of one stamped row: `(rr, (month, year))` gets
`Season := year`, `Month := month` from the filename (lines 59-60, always
defined after the `Int64` coercion of lines 85-86), and every needed
counting column via `normCount`.  Pre-existing derived columns were coerced
by the loop of lines 79-82, hence `toNum`. -/
def normRow (p : Presence) (x : RawRow × ℕ × ℕ) : Row :=
  { Name := x.1.Name
    Season := some (x.2.2 : ℤ)
    Month := some (x.2.1 : ℤ)
    PA := normCount p.hPA x.1.cPA
    AB := normCount p.hAB x.1.cAB
    H := normCount p.hH x.1.cH
    B1 := normCount p.hB1 x.1.cB1
    B2 := normCount p.hB2 x.1.cB2
    B3 := normCount p.hB3 x.1.cB3
    HR := normCount p.hHR x.1.cHR
    BB := normCount p.hBB x.1.cBB
    IBB := normCount p.hIBB x.1.cIBB
    HBP := normCount p.hHBP x.1.cHBP
    SF := normCount p.hSF x.1.cSF
    R := normCount p.hR x.1.cR
    RBI := normCount p.hRBI x.1.cRBI
    SB := normCount p.hSB x.1.cSB
    K := normCount p.hK x.1.cK
    OPS0 := toNum x.1.cOPS
    wOBA0 := toNum x.1.cWOBA
    WAR0 := toNum x.1.cWAR
    fWAR0 := toNum x.1.cFWAR
    FWOBAraw0 := toNum x.1.cFWOBAraw
    FWOBA0 := toNum x.1.cFWOBA }

/-- The month-name lookup of line 90 as a function. -/
def monthName (m : ℤ) : Option String :=
  if m = 4 then some "Apr"
  else if m = 5 then some "May"
  else if m = 6 then some "Jun"
  else if m = 7 then some "Jul"
  else if m = 8 then some "Aug"
  else if m = 9 then some "Sep"
  else none

/-- `Month.map(month_names)` (line 91): a null month stays null, a month
outside the map becomes NaN (absent label). -/
def monthLabel (m : Option ℤ) : Option String := m.bind monthName

/-- The season mask of line 87: `all_df["Season"] >= 2021` where a null
season does not satisfy the mask. -/
def seasonKeep (r : Row) : Bool :=
  match r.Season with
  | some s => decide (2021 ≤ s)
  | none => false

/-- Total bases (line 113): `1B + 2*2B + 3*3B + 4*HR`. -/
def totalBases (r : Row) : ℚ := r.B1 + 2 * r.B2 + 3 * r.B3 + 4 * r.HR

/-- Slugging (line 114): `np.where(AB > 0, tb / AB, nan)`. -/
def slg (r : Row) : Option ℚ :=
  if 0 < r.AB then some (totalBases r / r.AB) else none

/-- On-base denominator (line 116): `AB + BB + HBP + SF`. -/
def obpDenom (r : Row) : ℚ := r.AB + r.BB + r.HBP + r.SF

/-- On-base rate (lines 117-121): guarded by `obp_denom > 0`. -/
def obp (r : Row) : Option ℚ :=
  if 0 < obpDenom r then some ((r.H + r.BB + r.HBP) / obpDenom r) else none

/-- OPS (line 123): `obp + slg`; float NaN propagates through `+`, so the
sum is defined only when both operands are. -/
def ops (r : Row) : Option ℚ :=
  match obp r, slg r with
  | some a, some b => some (a + b)
  | _, _ => none

/-- Unintentional walks (line 141): `(BB - IBB).clip(lower=0)`. -/
def ubb (r : Row) : ℚ := max (r.BB - r.IBB) 0

/-- wOBA denominator (line 142): `AB + ubb + SF + HBP`. -/
def wobaDenom (r : Row) : ℚ := r.AB + ubb r + r.SF + r.HBP

/-- wOBA numerator (lines 143-150) with the fixed weights of lines 132-139. -/
def wobaNum (r : Row) : ℚ :=
  0.69 * ubb r + 0.72 * r.HBP + 0.88 * r.B1 + 1.25 * r.B2
    + 1.58 * r.B3 + 2.01 * r.HR

/-- wOBA (line 151): `np.where(denom > 0, num / denom, nan)`. -/
def woba (r : Row) : Option ℚ :=
  if 0 < wobaDenom r then some (wobaNum r / wobaDenom r) else none

/-- The FWOBA_raw numerator (lines 166-180): `fw_raw` starts at `0.0` and
accumulates `wt * col` in the dict order H, R, 2B, HR, SB, BB, RBI, K. -/
def fwNum (r : Row) : ℚ :=
  0 + 0.55 * r.H + 0.55 * r.R + 0.25 * r.B2 + 1.10 * r.HR
    + 0.35 * r.SB + 0.45 * r.BB + 0.55 * r.RBI + (-0.35) * r.K

/-- FWOBA_raw (lines 177-182): `PA.where(PA > 0)` masks non-positive PA to
NaN, and `np.where(pa.notna(), fw_raw / pa, nan)`. -/
def fwobaRaw (r : Row) : Option ℚ :=
  if 0 < r.PA then some (fwNum r / r.PA) else none

/-- One derived output row (every final column except the rescaled `FWOBA`,
which lives in ℝ and is kept table-level in `fwobaCol`).  The guards mirror
lines 111 (`"OPS" not in columns`), 130 (`"wOBA" not in columns`) and
156 (`"WAR" in columns and "fWAR" not in columns`); `FWOBA_raw` (line 182)
is assigned unconditionally. -/
structure OutRow where
  base : Row
  MonthLabel : Option String
  OPS : Option ℚ
  wOBA : Option ℚ
  fWAR : Option ℚ
  FWOBA_raw : Option ℚ
deriving DecidableEq

/-- The derivation stage (lines 89-182) applied to one normalized row. -/
def deriveRow (p : Presence) (r : Row) : OutRow :=
  { base := r
    MonthLabel := monthLabel r.Month
    OPS := if p.hasOPS then some r.OPS0 else ops r
    wOBA := if p.hasWOBA then some r.wOBA0 else woba r
    fWAR := if p.hasFWAR then some r.fWAR0
            else if p.hasWAR then some r.WAR0 else none
    FWOBA_raw := fwobaRaw r }

/-- The ingestion loop (lines 47-61): each file whose name fullmatches the
pattern contributes its rows stamped with the decoded `(month, year)`; a
non-matching file contributes nothing. -/
def stamped (files : List CsvFile) : List (RawRow × ℕ × ℕ) :=
  files.foldr
    (fun f acc =>
      match parseMY f.name with
      | some my => (f.rows.map (fun r => (r, my))) ++ acc
      | none => acc)
    []

/-- The diagnostic notices printed on line 50, one per skipped file. -/
def skipNotices (files : List CsvFile) : List String :=
  (files.filter (fun f => (parseMY f.name).isNone)).map
    (fun f => "Skipping unrecognized filename: " ++ f.name)

/-- The normalized, season-filtered table (lines 69-106): the corpus over
which the rescaler statistics of lines 188-191 are computed. -/
def filteredRows (p : Presence) (files : List CsvFile) : List Row :=
  ((stamped files).map (normRow p)).filter seasonKeep

/-- The pipeline up to (and excluding) the ℝ-valued `FWOBA` column.
`dataDir` stands for the resolved input directory path interpolated into
the fatal error messages of lines 43 and 64-67. -/
def pipelineCore (dataDir : String) (p : Presence) (files : List CsvFile) :
    Except String (List OutRow) :=
  if files.isEmpty then
    Except.error ("No CSV files found in " ++ dataDir)
  else if (files.filter (fun f => (parseMY f.name).isSome)).isEmpty then
    Except.error ("No usable CSVs found. Check filenames match MM_YYYY.csv and that "
      ++ dataDir ++ " contains the monthly files.")
  else
    Except.ok ((filteredRows p files).map (deriveRow p))

/-- The qualification mask of line 188: `PA >= 20` and `FWOBA_raw` defined. -/
def qualMask (r : Row) : Bool :=
  decide ((20 : ℚ) ≤ r.PA) && (fwobaRaw r).isSome

/-- The `FWOBA_raw` values of the qualified subset (lines 188-191). -/
def qualRaws (all : List Row) : List ℚ :=
  (all.filter qualMask).filterMap fwobaRaw

/-- `Series.mean` : NaN on an empty series, else the arithmetic mean. -/
def listMean (xs : List ℚ) : Option ℚ :=
  if xs.isEmpty then none else some (xs.sum / xs.length)

/-- `Series.std` (default `ddof=1`, the sample standard deviation) has a
defined, finite square exactly when the series has at least two entries;
this is that square (the sample variance). -/
def listSampleVar (xs : List ℚ) : Option ℚ :=
  if 2 ≤ xs.length then
    some ((xs.map (fun x => (x - xs.sum / xs.length) ^ 2)).sum
      / ((xs.length : ℚ) - 1))
  else none

/-- `raw_mean` of line 190. -/
def rawMean (all : List Row) : Option ℚ := listMean (qualRaws all)

/-- The square of `raw_std` of line 191 (`none` when the std is NaN). -/
def rawVar (all : List Row) : Option ℚ := listSampleVar (qualRaws all)

/-- The branch condition of line 193, `if raw_std and raw_std > 0`:
a NaN std is truthy but fails `> 0`, a zero std is falsy, so the branch is
taken exactly when the std is defined and positive, i.e. when the sample
variance is defined and positive. -/
def stdPosB (all : List Row) : Bool :=
  match rawVar all with
  | some v => decide (0 < v)
  | none => false

/-- `raw_std` of line 191 as a real number (junk value `sqrt 0` when the
std is NaN, which the rescaler below never reads). -/
noncomputable def rawStd (all : List Row) : ℝ :=
  Real.sqrt (((rawVar all).getD 0 : ℚ) : ℝ)

/-- The rescaler (lines 188-197) for one row of the table: on the positive
branch `FWOBA = 0.320 + z * 0.045` with `z = (FWOBA_raw - mean) / std`
(NaN raw propagates to a NaN `FWOBA`); on the degenerate branch every row
gets the constant `0.320`.  When `stdPosB` holds the mean is necessarily
defined (the qualified subset has at least two entries), so `getD 0` never
substitutes. -/
noncomputable def fwobaCol (all : List Row) (r : Row) : Option ℝ :=
  if stdPosB all then
    (fwobaRaw r).map
      (fun x => (0.320 : ℝ)
        + ((x : ℝ) - ((rawMean all).getD 0 : ℝ)) / rawStd all * 0.045)
  else some 0.320

/-- The full `FWOBA` column of the final table (lines 188-197): the same
global statistics are used for every row. -/
noncomputable def fwobaColumn (p : Presence) (files : List CsvFile) : List (Option ℝ) :=
  (filteredRows p files).map (fwobaCol (filteredRows p files))

/-! ## Helper lemmas -/

theorem normCount_nonneg {c : Option ℚ} (b : Bool) (h : 0 ≤ toNum c) :
    0 ≤ normCount b c := by
  cases b <;> simp [normCount, h]

theorem monthName_some {m : ℤ} {l : String} (h : monthName m = some l) :
    4 ≤ m ∧ m ≤ 9 := by
  unfold monthName at h
  split_ifs at h with h1 h2 h3 h4 h5 h6 <;> omega

theorem monthName_none {m : ℤ} (h : m < 4 ∨ 9 < m) : monthName m = none := by
  unfold monthName
  split_ifs with h1 h2 h3 h4 h5 h6 <;> first | rfl | (exfalso; omega)

/-! ## Claims -/

/-- Claim C2: every guarded division yields an explicit missing marker on a
zero denominator, never a fault and never zero: with `AB = 0` both slugging
and OPS are undefined even when the on-base rate is defined, with `PA = 0`
(the coerced value of a missing PA) `FWOBA_raw` is undefined, and the
on-base-rate and wOBA divisions are likewise guarded. -/
theorem claim2_guarded_divisions (r : Row) :
    (r.AB = 0 → slg r = none ∧ ops r = none) ∧
    (r.PA = 0 → fwobaRaw r = none) ∧
    (obpDenom r = 0 → obp r = none) ∧
    (wobaDenom r = 0 → woba r = none) := by
  refine ⟨?_, ?_, ?_, ?_⟩
  · intro h
    have hs : slg r = none := by simp [slg, h]
    refine ⟨hs, ?_⟩
    unfold ops
    rw [hs]
    cases obp r <;> rfl
  · intro h
    simp [fwobaRaw, h]
  · intro h
    simp [obp, h]
  · intro h
    simp [woba, h]

/-- Witness for C2: the all-zero row has undefined slugging, OPS, FWOBA_raw,
on-base rate and wOBA. -/
theorem claim2_witness :
    slg ({} : Row) = none ∧ ops ({} : Row) = none ∧
    fwobaRaw ({} : Row) = none ∧ obp ({} : Row) = none ∧
    woba ({} : Row) = none := by
  obtain ⟨h1, h2, h3, h4⟩ := claim2_guarded_divisions ({} : Row)
  exact ⟨(h1 rfl).1, (h1 rfl).2, h2 rfl, h3 (by with_unfolding_all rfl),
    h4 (by with_unfolding_all rfl)⟩

/-- Claim C3: for every row with `PA > 0`, `FWOBA_raw` is the weighted sum
of (H, R, 2B, HR, SB, BB, RBI, K) with coefficients
(0.55, 0.55, 0.25, 1.10, 0.35, 0.45, 0.55, -0.35) divided by PA. -/
theorem claim3_fwoba_raw_formula (r : Row) (h : 0 < r.PA) :
    fwobaRaw r = some ((0.55 * r.H + 0.55 * r.R + 0.25 * r.B2 + 1.10 * r.HR
      + 0.35 * r.SB + 0.45 * r.BB + 0.55 * r.RBI - 0.35 * r.K) / r.PA) := by
  unfold fwobaRaw
  rw [if_pos h]
  congr 1
  unfold fwNum
  ring

/-- Witness for C3: the row with PA=20, H=5, R=3, 2B=1, HR=1, SB=1, BB=2,
RBI=3, K=4 gets `FWOBA_raw = 7.25 / 20 = 0.3625` exactly. -/
theorem claim3_witness :
    fwobaRaw { PA := 20, H := 5, R := 3, B2 := 1, HR := 1, SB := 1,
               BB := 2, RBI := 3, K := 4 } = some 0.3625 := by
  rw [claim3_fwoba_raw_formula _ (by with_unfolding_all decide)]
  with_unfolding_all rfl

/-- Claim C9: for every derived wOBA row, unintentional walks are
`BB - IBB` floored at zero (never negative), and when the denominator
`AB + ubb + SF + HBP` is positive, wOBA is the weighted sum of
(ubb, HBP, 1B, 2B, 3B, HR) with coefficients
(0.69, 0.72, 0.88, 1.25, 1.58, 2.01) divided by that denominator. -/
theorem claim9_woba_formula (r : Row) (h : 0 < wobaDenom r) :
    0 ≤ max (r.BB - r.IBB) 0 ∧ ubb r = max (r.BB - r.IBB) 0 ∧
    woba r = some ((0.69 * max (r.BB - r.IBB) 0 + 0.72 * r.HBP + 0.88 * r.B1
        + 1.25 * r.B2 + 1.58 * r.B3 + 2.01 * r.HR)
      / (r.AB + max (r.BB - r.IBB) 0 + r.SF + r.HBP)) := by
  refine ⟨le_max_right _ _, rfl, ?_⟩
  unfold woba
  rw [if_pos h]
  rfl

/-- Witness for C9: the row with AB=10, BB=2, IBB=0, HBP=0, SF=0, 1B=3,
2B=1, 3B=0, HR=1 has ubb=2, denominator 12, numerator 7.28 and
wOBA = 7.28 / 12 = 91 / 150 exactly. -/
theorem claim9_witness :
    woba { AB := 10, BB := 2, B1 := 3, B2 := 1, HR := 1 } = some (91 / 150) := by
  rw [(claim9_woba_formula { AB := 10, BB := 2, B1 := 3, B2 := 1, HR := 1 }
    (by with_unfolding_all decide)).2.2]
  with_unfolding_all rfl

/-- Counterexample to C6 as stated: a numeric source cell holding `-3`
survives coercion as `-3`, so the normalized PA of that row is negative
(`_to_num` only repairs non-numeric and missing cells, it never clamps). -/
theorem claim6_counterexample :
    ¬ (0 ≤ (normRow { hPA := true } ({ cPA := some (-3) }, 4, 2021)).PA) := by
  with_unfolding_all decide

/-- Claim C6 amended: after normalization a counting column is `0` whenever
its source cell is missing/non-numeric or the column is absent from the
input, and every counting column of a row is nonnegative provided each of
its coerced source cells is nonnegative (a negative numeric cell is the one
case that survives as a negative value). -/
theorem claim6_nonneg_amended (p : Presence) (x : RawRow × ℕ × ℕ)
    (h1 : 0 ≤ toNum x.1.cPA) (h2 : 0 ≤ toNum x.1.cAB) (h3 : 0 ≤ toNum x.1.cH)
    (h4 : 0 ≤ toNum x.1.cB1) (h5 : 0 ≤ toNum x.1.cB2) (h6 : 0 ≤ toNum x.1.cB3)
    (h7 : 0 ≤ toNum x.1.cHR) (h8 : 0 ≤ toNum x.1.cBB) (h9 : 0 ≤ toNum x.1.cIBB)
    (h10 : 0 ≤ toNum x.1.cHBP) (h11 : 0 ≤ toNum x.1.cSF) (h12 : 0 ≤ toNum x.1.cR)
    (h13 : 0 ≤ toNum x.1.cRBI) (h14 : 0 ≤ toNum x.1.cSB) (h15 : 0 ≤ toNum x.1.cK) :
    (∀ b : Bool, normCount b none = 0) ∧
    (∀ c : Option ℚ, normCount false c = 0) ∧
    0 ≤ (normRow p x).PA ∧ 0 ≤ (normRow p x).AB ∧ 0 ≤ (normRow p x).H ∧
    0 ≤ (normRow p x).B1 ∧ 0 ≤ (normRow p x).B2 ∧ 0 ≤ (normRow p x).B3 ∧
    0 ≤ (normRow p x).HR ∧ 0 ≤ (normRow p x).BB ∧ 0 ≤ (normRow p x).IBB ∧
    0 ≤ (normRow p x).HBP ∧ 0 ≤ (normRow p x).SF ∧ 0 ≤ (normRow p x).R ∧
    0 ≤ (normRow p x).RBI ∧ 0 ≤ (normRow p x).SB ∧ 0 ≤ (normRow p x).K :=
  ⟨fun b => by cases b <;> rfl, fun _ => rfl,
    normCount_nonneg _ h1, normCount_nonneg _ h2, normCount_nonneg _ h3,
    normCount_nonneg _ h4, normCount_nonneg _ h5, normCount_nonneg _ h6,
    normCount_nonneg _ h7, normCount_nonneg _ h8, normCount_nonneg _ h9,
    normCount_nonneg _ h10, normCount_nonneg _ h11, normCount_nonneg _ h12,
    normCount_nonneg _ h13, normCount_nonneg _ h14, normCount_nonneg _ h15⟩

/-- Witness for the amended C6: a row with a numeric PA cell, a missing K
cell, and every other column absent normalizes with nonnegative PA. -/
theorem claim6_witness :
    0 ≤ (normRow { hPA := true, hK := true }
      ({ cPA := some 7, cK := none }, 4, 2021)).PA :=
  (claim6_nonneg_amended { hPA := true, hK := true }
    ({ cPA := some 7, cK := none }, 4, 2021)
    (by with_unfolding_all decide) (by with_unfolding_all decide)
    (by with_unfolding_all decide) (by with_unfolding_all decide)
    (by with_unfolding_all decide) (by with_unfolding_all decide)
    (by with_unfolding_all decide) (by with_unfolding_all decide)
    (by with_unfolding_all decide) (by with_unfolding_all decide)
    (by with_unfolding_all decide) (by with_unfolding_all decide)
    (by with_unfolding_all decide) (by with_unfolding_all decide)
    (by with_unfolding_all decide)).2.2.1

set_option maxRecDepth 4000 in
/-- Counterexample to C5 as stated: a table with a pre-existing `FWOBA_raw`
column (value 999 on a row with PA 0) does not keep that value — the
derivation stage overwrites `FWOBA_raw` unconditionally (line 182 has no
existence guard), here with the undefined marker. -/
theorem claim5_counterexample :
    ({ hasFWOBAraw := true } : Presence).hasFWOBAraw = true ∧
    ({ FWOBAraw0 := 999 } : Row).FWOBAraw0 = 999 ∧
    (deriveRow { hasFWOBAraw := true } { FWOBAraw0 := 999 }).FWOBA_raw = none ∧
    (deriveRow { hasFWOBAraw := true } { FWOBAraw0 := 999 }).FWOBA_raw ≠ some 999 := by
  with_unfolding_all decide

/-- Claim C5 amended: of the derived columns only OPS, wOBA and fWAR are
guarded by column existence (a pre-existing column is kept untouched);
`FWOBA_raw` (and the rescaled `FWOBA`, which reads only the recomputed
values) is always recomputed, overwriting any same-named pre-existing
column. -/
theorem claim5_derivation_guards (p : Presence) (r : Row) :
    (p.hasOPS = true → (deriveRow p r).OPS = some r.OPS0) ∧
    (p.hasOPS = false → (deriveRow p r).OPS = ops r) ∧
    (p.hasWOBA = true → (deriveRow p r).wOBA = some r.wOBA0) ∧
    (p.hasWOBA = false → (deriveRow p r).wOBA = woba r) ∧
    (p.hasFWAR = true → (deriveRow p r).fWAR = some r.fWAR0) ∧
    (p.hasFWAR = false → p.hasWAR = true → (deriveRow p r).fWAR = some r.WAR0) ∧
    (p.hasFWAR = false → p.hasWAR = false → (deriveRow p r).fWAR = none) ∧
    (deriveRow p r).FWOBA_raw = fwobaRaw r := by
  refine ⟨?_, ?_, ?_, ?_, ?_, ?_, ?_, rfl⟩ <;> intros <;> simp_all [deriveRow]

/-- Witness for the amended C5: a table with a pre-existing OPS column keeps
its value on every row. -/
theorem claim5_witness :
    (deriveRow { hasOPS := true } { OPS0 := 2 }).OPS = some 2 :=
  (claim5_derivation_guards { hasOPS := true } { OPS0 := 2 }).1 rfl

/-- Claim C4: when the qualified subset is empty, or its sample standard
deviation is undefined or zero (i.e. the sample variance is `none` or `0`),
the rescaler gives every row — defined `FWOBA_raw` or not — the constant
`FWOBA = 0.320`. -/
theorem claim4_rescaler_degenerate (all : List Row)
    (h : qualRaws all = [] ∨ rawVar all = none ∨ rawVar all = some 0) (r : Row) :
    fwobaCol all r = some 0.320 := by
  have hb : stdPosB all = false := by
    rcases h with h | h | h
    · have hv : rawVar all = none := by
        simp [rawVar, h, listSampleVar]
      simp [stdPosB, hv]
    · simp [stdPosB, h]
    · simp [stdPosB, h]
  simp [fwobaCol, hb]

/-- Witness for C4: on an empty corpus every row's FWOBA is 0.320. -/
theorem claim4_witness : fwobaCol [] ({} : Row) = some 0.320 :=
  claim4_rescaler_degenerate [] (Or.inl rfl) {}

/-- Claim C1: the rescaler uses one mean and one sample standard deviation
of `FWOBA_raw` over the qualified subset (PA >= 20 with defined raw value)
of the whole corpus passed in `all`; when that standard deviation is
defined and positive (variance `v` with `0 < v`, std = its square root),
every row — qualified or not — gets
`FWOBA = 0.320 + ((FWOBA_raw - mean) / std) * 0.045`,
with an undefined `FWOBA_raw` propagating to an undefined `FWOBA`. -/
theorem claim1_rescaler_global_zscore (all : List Row) (v : ℚ)
    (hv : rawVar all = some v) (hpos : 0 < v) (r : Row) :
    ∃ m : ℚ, rawMean all = some m ∧
      0 < rawStd all ∧ rawStd all ^ 2 = (v : ℝ) ∧
      fwobaCol all r = (fwobaRaw r).map
        (fun x => (0.320 : ℝ) + ((x : ℝ) - (m : ℝ)) / rawStd all * 0.045) := by
  have hlen : 2 ≤ (qualRaws all).length := by
    by_contra hc
    unfold rawVar listSampleVar at hv
    rw [if_neg hc] at hv
    exact Option.noConfusion hv
  have hne : (qualRaws all).isEmpty = false := by
    cases hq : qualRaws all with
    | nil => rw [hq] at hlen; simp at hlen
    | cons a t => rfl
  have hm : rawMean all = some ((qualRaws all).sum / (qualRaws all).length) := by
    unfold rawMean listMean
    rw [hne]
    rfl
  have hstd : rawStd all = Real.sqrt ((v : ℚ) : ℝ) := by
    unfold rawStd
    rw [hv, Option.getD_some]
  have hb : stdPosB all = true := by
    unfold stdPosB
    rw [hv]
    simpa using hpos
  refine ⟨(qualRaws all).sum / (qualRaws all).length, hm, ?_, ?_, ?_⟩
  · rw [hstd]
    exact Real.sqrt_pos.mpr (by exact_mod_cast hpos)
  · rw [hstd]
    exact Real.sq_sqrt (by exact_mod_cast hpos.le)
  · unfold fwobaCol
    rw [hb, hm]
    simp

/-- Witness for C1: a two-row corpus (both qualified, raw rates 0 and 0.11)
has defined positive sample variance 0.00605, and the theorem applies. -/
theorem claim1_witness :
    rawVar [{ PA := 20 }, { PA := 20, R := 4 }] = some 0.00605 ∧
    (0 : ℚ) < 0.00605 ∧
    ∃ m : ℚ, rawMean [{ PA := 20 }, { PA := 20, R := 4 }] = some m ∧
      0 < rawStd [{ PA := 20 }, { PA := 20, R := 4 }] ∧
      rawStd [{ PA := 20 }, { PA := 20, R := 4 }] ^ 2 = ((0.00605 : ℚ) : ℝ) ∧
      fwobaCol [{ PA := 20 }, { PA := 20, R := 4 }] ({} : Row) =
        (fwobaRaw ({} : Row)).map
          (fun x => (0.320 : ℝ) + ((x : ℝ) - (m : ℝ))
            / rawStd [{ PA := 20 }, { PA := 20, R := 4 }] * 0.045) :=
  ⟨by with_unfolding_all rfl, by with_unfolding_all decide,
    claim1_rescaler_global_zscore [{ PA := 20 }, { PA := 20, R := 4 }] 0.00605
      (by with_unfolding_all rfl) (by with_unfolding_all decide) {}⟩

/-- Claim C7: a file whose name does not fullmatch `MM_YYYY.csv` (e.g. a
single-digit month `4_2021.csv` or a two-digit year `04_21.csv`) is skipped
with a diagnostic notice and contributes no rows, without aborting the run
when at least one conforming file exists; with zero files, or zero files
matching the pattern, the load fails with a fatal error whose message
carries the resolved input directory path. -/
theorem claim7_discovery_errors (dataDir : String) (p : Presence)
    (files : List CsvFile) :
    parseMY "4_2021.csv" = none ∧
    parseMY "04_21.csv" = none ∧
    (∀ (f : CsvFile) (rest : List CsvFile), parseMY f.name = none →
      stamped (f :: rest) = stamped rest) ∧
    (∀ f ∈ files, parseMY f.name = none →
      ("Skipping unrecognized filename: " ++ f.name) ∈ skipNotices files) ∧
    (files = [] → pipelineCore dataDir p files =
      Except.error ("No CSV files found in " ++ dataDir)) ∧
    ((∀ f ∈ files, parseMY f.name = none) → files ≠ [] →
      pipelineCore dataDir p files = Except.error
        ("No usable CSVs found. Check filenames match MM_YYYY.csv and that "
          ++ dataDir ++ " contains the monthly files.")) ∧
    ((∃ f ∈ files, (parseMY f.name).isSome = true) →
      ∃ out, pipelineCore dataDir p files = Except.ok out) := by
  refine ⟨by decide, by decide, ?_, ?_, ?_, ?_, ?_⟩
  · intro f rest h
    simp [stamped, h]
  · intro f hf h
    exact List.mem_map.mpr ⟨f, List.mem_filter.mpr ⟨hf, by simp [h]⟩, rfl⟩
  · intro h
    subst h
    rfl
  · intro hall hne
    have h1 : files.isEmpty = false := by
      cases files with
      | nil => exact absurd rfl hne
      | cons a t => rfl
    have hgen : ∀ l : List CsvFile, (∀ f ∈ l, parseMY f.name = none) →
        l.filter (fun f => (parseMY f.name).isSome) = [] := by
      intro l
      induction l with
      | nil => intro _; rfl
      | cons a t ih =>
        intro hl
        have ha : parseMY a.name = none := hl a (by simp)
        simpa [List.filter, ha] using ih fun f hf => hl f (by simp [hf])
    have h2 : (files.filter (fun f => (parseMY f.name).isSome)).isEmpty = true := by
      simp [hgen files hall]
    simp [pipelineCore, h1, h2]
  · rintro ⟨f, hf, hs⟩
    have h1 : files.isEmpty = false := by
      cases files with
      | nil => simp at hf
      | cons a t => rfl
    have h2 : (files.filter (fun f => (parseMY f.name).isSome)).isEmpty = false := by
      have hmem : f ∈ files.filter (fun f => (parseMY f.name).isSome) :=
        List.mem_filter.mpr ⟨hf, hs⟩
      cases hq : files.filter (fun f => (parseMY f.name).isSome) with
      | nil => rw [hq] at hmem; simp at hmem
      | cons a t => rfl
    exact ⟨(filteredRows p files).map (deriveRow p), by simp [pipelineCore, h1, h2]⟩

/-- Witness for C7: with the non-conforming `4_2021.csv` next to the
conforming `04_2021.csv`, the load succeeds. -/
theorem claim7_witness :
    ∃ out, pipelineCore "data/monthly" ({} : Presence)
      [⟨"4_2021.csv", []⟩, ⟨"04_2021.csv", []⟩] = Except.ok out :=
  (claim7_discovery_errors "data/monthly" {}
      [⟨"4_2021.csv", []⟩, ⟨"04_2021.csv", []⟩]).2.2.2.2.2.2
    ⟨⟨"04_2021.csv", []⟩, by decide, by decide⟩

/-- Claim C8: a null season never passes the season mask, and in any table
the pipeline returns, every row has `Season >= 2021`, and whenever its
`MonthLabel` is defined its `Month` lies in `{4, ..., 9}`. -/
theorem claim8_season_month_invariant (dataDir : String) (p : Presence)
    (files : List CsvFile) (out : List OutRow)
    (hok : pipelineCore dataDir p files = Except.ok out) :
    (∀ r : Row, r.Season = none → seasonKeep r = false) ∧
    ∀ o ∈ out,
      (∃ s : ℤ, o.base.Season = some s ∧ 2021 ≤ s) ∧
      ∀ lbl : String, o.MonthLabel = some lbl →
        ∃ mv : ℤ, o.base.Month = some mv ∧ 4 ≤ mv ∧ mv ≤ 9 := by
  constructor
  · intro r h
    simp [seasonKeep, h]
  · have hout : out = (filteredRows p files).map (deriveRow p) := by
      unfold pipelineCore at hok
      split_ifs at hok
      simp_all
    intro o ho
    rw [hout] at ho
    obtain ⟨r, hr, rfl⟩ := List.mem_map.mp ho
    obtain ⟨hrm, hkeep⟩ := List.mem_filter.mp hr
    constructor
    · unfold seasonKeep at hkeep
      cases hs : r.Season with
      | none => rw [hs] at hkeep; simp at hkeep
      | some s =>
        rw [hs] at hkeep
        exact ⟨s, hs, of_decide_eq_true hkeep⟩
    · intro lbl hl
      have hl' : monthLabel r.Month = some lbl := hl
      cases hmo : r.Month with
      | none => rw [monthLabel, hmo] at hl'; simp at hl'
      | some mv =>
        rw [monthLabel, hmo] at hl'
        simp only [Option.some_bind] at hl'
        exact ⟨mv, hmo, (monthName_some hl').1, (monthName_some hl').2⟩

set_option maxRecDepth 8000 in
/-- Witness for C8: the single output row of a one-file run has a defined
season of at least 2021. -/
theorem claim8_witness :
    ∃ s : ℤ, (deriveRow ({} : Presence) (normRow ({} : Presence)
      ({ Name := "a" }, (4, 2021)))).base.Season = some s ∧ 2021 ≤ s :=
  ((claim8_season_month_invariant "data/monthly" {}
      [⟨"04_2021.csv", [{ Name := "a" }]⟩] _ rfl).2
    (deriveRow {} (normRow {} ({ Name := "a" }, (4, 2021))))
    (by with_unfolding_all decide)).1

/-- Claim C10: a file whose name matches the pattern with a month outside
4-9 is ingested and its row retained in the output with that month and a
missing `MonthLabel`; the pipeline neither errors nor drops the row on
account of the month. -/
theorem claim10_out_of_range_month (dataDir : String) (p : Presence)
    (name : String) (rr : RawRow) (m y : ℕ)
    (hp : parseMY name = some (m, y)) (hy : 2021 ≤ y) (hm : m < 4 ∨ 9 < m) :
    ∃ o : OutRow, pipelineCore dataDir p [⟨name, [rr]⟩] = Except.ok [o] ∧
      o.base.Month = some (m : ℤ) ∧ o.base.Season = some (y : ℤ) ∧
      o.MonthLabel = none := by
  have hst : stamped [⟨name, [rr]⟩] = [(rr, (m, y))] := by
    simp [stamped, hp]
  have hkeep : seasonKeep (normRow p (rr, (m, y))) = true := by
    unfold seasonKeep normRow
    simp only [decide_eq_true_eq]
    exact_mod_cast hy
  have hfr : filteredRows p [⟨name, [rr]⟩] = [normRow p (rr, (m, y))] := by
    simp [filteredRows, hst, hkeep]
  have h1 : ([⟨name, [rr]⟩] : List CsvFile).isEmpty = false := rfl
  have h2 : (([⟨name, [rr]⟩] : List CsvFile).filter
      (fun f => (parseMY f.name).isSome)).isEmpty = false := by
    simp [hp]
  refine ⟨deriveRow p (normRow p (rr, (m, y))), ?_, rfl, rfl, ?_⟩
  · simp only [pipelineCore, h1, h2, Bool.false_eq_true, if_false, hfr,
      List.map_cons, List.map_nil]
  · show monthLabel (some (m : ℤ)) = none
    simp only [monthLabel, Option.some_bind]
    exact monthName_none (by omega)

/-- Witness for C10: a file `10_2021.csv` (month 10, outside April-September)
is retained with `Month = 10` and no month label. -/
theorem claim10_witness :
    ∃ o : OutRow, pipelineCore "data/monthly" ({} : Presence)
        [⟨"10_2021.csv", [{}]⟩] = Except.ok [o] ∧
      o.base.Month = some (10 : ℤ) ∧ o.base.Season = some (2021 : ℤ) ∧
      o.MonthLabel = none :=
  claim10_out_of_range_month "data/monthly" {} "10_2021.csv" {} 10 2021
    (by decide) (by decide) (by decide)

end FG
